import Mathlib

/-!
Shallow embedding of the synchronization engine of `src/dev.py`
(`FilePair`, `SyncMonitor.calculate_file_hash`, `SyncMonitor.sync_file`,
`SyncMonitor.validate_all_pairs`, `SyncMonitor.run`, `SyncMonitor._monitor_loop`).

File contents are byte lists; the file system, file readability, directory
set and file metadata are modelled by an `Env`.  The SHA-256 hex digest is
abstracted by a parameter `H : List Nat → String` (the composite
`hashlib.sha256`/`hexdigest`); the chunked feeding of the hasher is modelled
concretely, so theorems about chunking are about the real read loop.
Failures that CPython raises as exceptions (unreadable file, `mkdir` failure,
`shutil.copy2` failure) are modelled by the `readable`, `mkdir_ok` and
`copy_ok` fields of the environment.  Wall-clock time is a `Nat` supplied to
each call (`datetime.now()` reads).
-/

namespace PyPiHubSync

/-- One notification/display side effect observed by the presentation and
notification sinks.  `display` records a call to `_display_status_live`;
`note` records a delivered `_send_notification` with its
`title`/`message`/`note_type` triple. -/
inductive Event where
  | display : Event
  | note (title message kind : String) : Event
deriving DecidableEq, Repr

/-- The `@dataclass FilePair` of `dev.py` (lines 102-110): paths are strings,
`last_hash`/`last_sync` optional, `status` a string, `error_count` a counter. -/
structure FilePair where
  source : String
  target : String
  last_hash : Option String
  last_sync : Option Nat
  status : String
  error_count : Nat
deriving DecidableEq, Repr

/-- The default construction `FilePair(source, target)` of the dataclass. -/
def initPair (src tgt : String) : FilePair :=
  { source := src, target := tgt, last_hash := none, last_sync := none,
    status := "pending", error_count := 0 }

/-- The `self.stats` dictionary of `SyncMonitor.__init__` (lines 143-151),
minus the derived `uptime` field which is only presentation. -/
structure Stats where
  sync_count : Nat
  error_count : Nat
  start_time : Option Nat
  last_sync : Option Nat
  total_files : Nat
  synced_files : Nat
deriving DecidableEq, Repr

/-- The mutable monitor state relevant to the engine: statistics,
`self.last_update`, the notifier configuration
(`self.notifier`/`self.enable_notifications`), and the trace of emitted
sink events. -/
structure MState where
  stats : Stats
  last_update : Nat
  notifier : Bool
  enable_notifications : Bool
  events : List Event
deriving DecidableEq, Repr

/-- The file-system environment seen by one process: file contents
(`none` = absent), readability (an unreadable file makes `open` raise),
metadata (the mtime/permission blob copied by `shutil.copy2`), the set of
existing directories, and whether `mkdir`/`copy2` succeed when attempted. -/
structure Env where
  fs : String → Option (List Nat)
  readable : String → Bool
  meta : String → Option Nat
  dirs : String → Bool
  mkdir_ok : Bool
  copy_ok : Bool

/-- Python `Path.exists()`: true for a file or a directory. -/
def pathExists (env : Env) (p : String) : Bool :=
  (env.fs p).isSome || env.dirs p

/-- Python `Path.is_file()`. -/
def isFile (env : Env) (p : String) : Bool :=
  (env.fs p).isSome

/-- Python `Path(p).parent` rendered on slash-separated path strings. -/
def parentPath (p : String) : String :=
  String.intercalate "/" ((p.splitOn "/").dropLast)

/-- The chain of directories `mkdir(parents=True)` guarantees to exist:
every slash-prefix of `p`, `p` itself included. -/
def ancestors (p : String) : List String :=
  (List.range (p.splitOn "/").length).map
    (fun i => String.intercalate "/" ((p.splitOn "/").take (i + 1)))

/-- The call `file_pair.target.parent.mkdir(parents=True, exist_ok=True)`. -/
def mkdir_parents (env : Env) (tgt : String) : Env :=
  { env with dirs := fun d => env.dirs d || (ancestors (parentPath tgt)).contains d }

/-- Python `shutil.copy2(src, tgt)`: copies the bytes and the metadata. -/
def copy2 (env : Env) (src tgt : String) : Env :=
  { env with
    fs := fun p => if p = tgt then env.fs src else env.fs p,
    meta := fun p => if p = tgt then env.meta src else env.meta p }

/-- The `iter(lambda: f.read(4096), b'')` loop body, with `fuel` as
structural termination bookkeeping (each read consumes at least one byte, so
`fuel = l.length` runs the loop to completion). -/
def readChunksAux : Nat → List Nat → List (List Nat)
  | 0, _ => []
  | _ + 1, [] => []
  | fuel + 1, l => l.take 4096 :: readChunksAux fuel (l.drop 4096)

/-- The successive `f.read(4096)` results of the read loop in
`calculate_file_hash`: the content cut into chunks of at most 4096 bytes. -/
def readChunks (l : List Nat) : List (List Nat) :=
  readChunksAux l.length l

/-- The byte stream absorbed by the `hashlib.sha256()` object after the
`hasher.update(chunk)` loop. -/
def hasherFeed (chunks : List (List Nat)) : List Nat :=
  chunks.foldl (fun acc c => acc ++ c) []

theorem foldl_append_eq_flatten (cs : List (List Nat)) :
    ∀ acc : List Nat, cs.foldl (fun a c => a ++ c) acc = acc ++ cs.flatten := by
  induction cs with
  | nil => intro acc; simp
  | cons c cs ih => intro acc; simp [List.foldl_cons, ih, List.append_assoc]

theorem readChunksAux_flatten :
    ∀ (fuel : Nat) (l : List Nat), l.length ≤ fuel →
      (readChunksAux fuel l).flatten = l := by
  intro fuel
  induction fuel with
  | zero =>
      intro l hl
      rw [List.length_eq_zero.mp (Nat.le_zero.mp hl)]
      rfl
  | succ n ih =>
      intro l hl
      cases l with
      | nil => rfl
      | cons x xs =>
          have e : readChunksAux (n + 1) (x :: xs)
              = (x :: xs).take 4096 :: readChunksAux n ((x :: xs).drop 4096) := rfl
          rw [e, List.flatten_cons, ih _ ?_, List.take_append_drop]
          calc ((x :: xs).drop 4096).length = (x :: xs).length - 4096 := by
                rw [List.length_drop]
            _ ≤ (x :: xs).length - 1 := by omega
            _ ≤ n := by simp only [List.length_cons] at hl ⊢; omega

theorem readChunks_flatten (l : List Nat) : (readChunks l).flatten = l :=
  readChunksAux_flatten l.length l (Nat.le_refl _)

/-- Feeding the hasher chunk by chunk absorbs exactly the file's content. -/
theorem hasherFeed_readChunks (l : List Nat) : hasherFeed (readChunks l) = l := by
  rw [hasherFeed, foldl_append_eq_flatten, List.nil_append, readChunks_flatten]

/-- Model of `SyncMonitor.calculate_file_hash` (lines 447-459): open the file, read
4096-byte chunks into a streaming hasher, return the hex digest; any
exception (absent file, unreadable file) is caught and `None` is returned. -/
def calculate_file_hash (H : List Nat → String) (env : Env) (p : String) :
    Option String :=
  match env.fs p with
  | none => none
  | some content =>
      if env.readable p then some (H (hasherFeed (readChunks content)))
      else none

/-- Model of `SyncMonitor._display_status_live`: one refresh of the live dashboard,
recorded as a `display` event on the sink trace. -/
def display (st : MState) : MState :=
  { st with events := st.events ++ [Event.display] }

/-- Model of `SyncMonitor._send_notification` (lines 425-445): delivers a notification
only when a notifier exists and notifications are enabled; delivery failures
are swallowed. -/
def send_notification (st : MState) (title message kind : String) : MState :=
  if st.notifier && st.enable_notifications then
    { st with events := st.events ++ [Event.note title message kind] }
  else st

/-- The value of the local `target_hash` in `sync_file`: `None` unless the
target exists, otherwise the hash attempt's result. -/
def targetHashOf (H : List Nat → String) (env : Env) (fp : FilePair) :
    Option String :=
  if pathExists env fp.target then calculate_file_hash H env fp.target
  else none

/-- Result of one `sync_file` call: the mutated pair, the mutated file
system, the mutated monitor state, and the returned boolean. -/
structure SyncOutcome where
  pair : FilePair
  env : Env
  st : MState
  ok : Bool

/-- The `except Exception` branch of `sync_file` (lines 519-537) followed by
the `finally` display: error status, both error counters, a `sync_error`
notification, return `False`. -/
def syncExcept (env : Env) (fp : FilePair) (st : MState) : SyncOutcome :=
  { pair := { fp with status := "error", error_count := fp.error_count + 1 },
    env := env,
    st := display (send_notification
      { st with stats := { st.stats with error_count := st.stats.error_count + 1 } }
      "Sync Error" ("Failed to sync " ++ fp.source) "sync_error"),
    ok := false }

/-- Model of `SyncMonitor.sync_file` (lines 461-538).  `t` is the reading
`datetime.now()` would give during this call. -/
def sync_file (H : List Nat → String) (env : Env) (t : Nat) (fp : FilePair)
    (st : MState) : SyncOutcome :=
  let fp1 : FilePair := { fp with status := "syncing" }
  let st1 : MState := display st
  match calculate_file_hash H env fp1.source with
  | none =>
      { pair := { fp1 with status := "error", error_count := fp1.error_count + 1 },
        env := env, st := display st1, ok := false }
  | some source_hash =>
      if targetHashOf H env fp1 = some source_hash then
        { pair := { fp1 with status := "synced" }, env := env,
          st := display (display st1), ok := true }
      else if env.mkdir_ok = false then syncExcept env fp1 st1
      else
        let env2 : Env := mkdir_parents env fp1.target
        if env2.copy_ok = false then syncExcept env2 fp1 st1
        else
          let env3 : Env := copy2 env2 fp1.source fp1.target
          let fp2 : FilePair :=
            { fp1 with last_hash := some source_hash, last_sync := some t,
                       status := "synced" }
          let st2 : MState :=
            { st1 with
              stats := { st1.stats with sync_count := st1.stats.sync_count + 1,
                                        last_sync := some t },
              last_update := t }
          { pair := fp2, env := env3,
            st := display (send_notification st2 "File Synchronized"
              (fp1.source ++ " -> " ++ fp1.target) "file_changed"),
            ok := true }

theorem status_update_source (fp : FilePair) (s : String) :
    ({ fp with status := s } : FilePair).source = fp.source := rfl

/-- Path lemma: the source cannot be hashed (lines 469-473).  The pair's
error counter moves, the monitor state only gains display refreshes, the
environment is untouched. -/
theorem sync_file_hash_fail (H : List Nat → String) (env : Env) (t : Nat)
    (fp : FilePair) (st : MState)
    (h : calculate_file_hash H env fp.source = none) :
    sync_file H env t fp st =
      { pair := { fp with status := "error", error_count := fp.error_count + 1 },
        env := env, st := display (display st), ok := false } := by
  simp only [sync_file, status_update_source, h]

/-- Path lemma: the no-op branch (lines 479-483), taken when the target's
hash equals the source's. -/
theorem sync_file_noop (H : List Nat → String) (env : Env) (t : Nat)
    (fp : FilePair) (st : MState) (sh : String)
    (hs : calculate_file_hash H env fp.source = some sh)
    (ht : targetHashOf H env { fp with status := "syncing" } = some sh) :
    sync_file H env t fp st =
      { pair := { fp with status := "synced" }, env := env,
        st := display (display (display st)), ok := true } := by
  simp only [sync_file, status_update_source, hs, ht, if_true, reduceIte]

/-- Path lemma: the copy branch (lines 485-517) with `mkdir` and `copy2`
succeeding. -/
theorem sync_file_copy (H : List Nat → String) (env : Env) (t : Nat)
    (fp : FilePair) (st : MState) (sh : String)
    (hs : calculate_file_hash H env fp.source = some sh)
    (ht : targetHashOf H env { fp with status := "syncing" } ≠ some sh)
    (hm : env.mkdir_ok = true)
    (hc : env.copy_ok = true) :
    sync_file H env t fp st =
      { pair := { fp with last_hash := some sh, last_sync := some t,
                          status := "synced" },
        env := copy2 (mkdir_parents env fp.target) fp.source fp.target,
        st := display (send_notification
          { display st with
            stats := { (display st).stats with
                       sync_count := (display st).stats.sync_count + 1,
                       last_sync := some t },
            last_update := t }
          "File Synchronized" (fp.source ++ " -> " ++ fp.target) "file_changed"),
        ok := true } := by
  have hm' : ¬ env.mkdir_ok = false := by simp [hm]
  have hc' : ¬ (mkdir_parents env fp.target).copy_ok = false := by
    simp [mkdir_parents, hc]
  simp only [sync_file, status_update_source, hs, if_neg ht, if_neg hm',
    mkdir_parents, hc]
  simp

/-- Path lemma: `mkdir` raises (modelled by `mkdir_ok = false`); the
`except` branch runs with the environment untouched. -/
theorem sync_file_mkdir_fail (H : List Nat → String) (env : Env) (t : Nat)
    (fp : FilePair) (st : MState) (sh : String)
    (hs : calculate_file_hash H env fp.source = some sh)
    (ht : targetHashOf H env { fp with status := "syncing" } ≠ some sh)
    (hm : env.mkdir_ok = false) :
    sync_file H env t fp st =
      syncExcept env { fp with status := "syncing" } (display st) := by
  simp only [sync_file, status_update_source, hs, if_neg ht, hm, if_true, reduceIte]

/-- Path lemma: `shutil.copy2` raises (modelled by `copy_ok = false`); the
`except` branch runs after `mkdir` already changed the directory set. -/
theorem sync_file_copy_fail (H : List Nat → String) (env : Env) (t : Nat)
    (fp : FilePair) (st : MState) (sh : String)
    (hs : calculate_file_hash H env fp.source = some sh)
    (ht : targetHashOf H env { fp with status := "syncing" } ≠ some sh)
    (hm : env.mkdir_ok = true)
    (hc : env.copy_ok = false) :
    sync_file H env t fp st =
      syncExcept (mkdir_parents env fp.target) { fp with status := "syncing" }
        (display st) := by
  have hm' : ¬ env.mkdir_ok = false := by simp [hm]
  have hc' : (mkdir_parents env fp.target).copy_ok = false := by
    simp [mkdir_parents, hc]
  simp only [sync_file, status_update_source, hs, if_neg ht, if_neg hm',
    mkdir_parents, hc]
  simp

/-- Model of `FilePair.validate` (lines 112-118): source must exist and be a regular
file; returns the flag and the log message. -/
def FilePair.validate (env : Env) (fp : FilePair) : Bool × String :=
  if pathExists env fp.source = false then
    (false, "Source file does not exist: " ++ fp.source)
  else if isFile env fp.source = false then
    (false, "Source is not a file: " ++ fp.source)
  else (true, "")

/-- Model of `SyncMonitor.validate_all_pairs` (lines 540-548): fold the per-pair
validation over the list, keeping `all_valid`. -/
def validate_all_pairs (env : Env) (pairs : List FilePair) : Bool :=
  pairs.foldl (fun all_valid pair => all_valid && (pair.validate env).1) true

theorem validate_all_pairs_eq_all (env : Env) (pairs : List FilePair) :
    validate_all_pairs env pairs = pairs.all (fun p => (p.validate env).1) := by
  have key : ∀ (l : List FilePair) (b : Bool),
      l.foldl (fun all_valid pair => all_valid && (pair.validate env).1) b =
        (b && l.all (fun p => (p.validate env).1)) := by
    intro l
    induction l with
    | nil => intro b; simp [List.all_nil]
    | cons p l ih =>
        intro b
        rw [List.foldl_cons, ih, List.all_cons, Bool.and_assoc]
  rw [validate_all_pairs, key, Bool.true_and]

/-- The initial synchronous pass of `SyncMonitor.run` (lines 595-597):
`sync_file` over each pair in order, threading the environment and the
monitor state, collecting each pair's outcome. -/
def initial_pass (H : List Nat → String) (t : Nat) :
    List FilePair → Env → MState → List (FilePair × Bool) × Env × MState
  | [], env, st => ([], env, st)
  | fp :: rest, env, st =>
      let o := sync_file H env t fp st
      let r := initial_pass H t rest o.env o.st
      ((o.pair, o.ok) :: r.1, r.2)

/-- Result of `SyncMonitor.run` up to the first scheduler tick. -/
structure RunOutcome where
  st : MState
  env : Env
  syncs : List (FilePair × Bool)
  aborted : Bool

/-- Model of `SyncMonitor.run` (lines 577-611) up to (and excluding) the monitor
loop: record the start time, validate all pairs, abort if validation fails,
otherwise perform the initial synchronous pass. -/
def run (H : List Nat → String) (env : Env) (t : Nat) (pairs : List FilePair)
    (st : MState) : RunOutcome :=
  let st := { st with stats := { st.stats with start_time := some t } }
  if validate_all_pairs env pairs = false then
    { st := st, env := env, syncs := [], aborted := true }
  else
    let r := initial_pass H t pairs env st
    { st := r.2.2, env := r.2.1, syncs := r.1, aborted := false }

/-- The sleep computation of `SyncMonitor._monitor_loop` (line 625):
`sleep_time = max(0.1, self.check_interval - elapsed)`.  Modelled over the
rationals. -/
def monitor_sleep_time (check_interval elapsed : ℚ) : ℚ :=
  max (1 / 10) (check_interval - elapsed)

/-- The notification events inside a sink trace (the `display` refreshes
filtered out). -/
def noteEvents (evs : List Event) : List Event :=
  evs.filter fun e => match e with
    | Event.note _ _ _ => true
    | Event.display => false

/-- The states (pair, file system) reachable from a freshly constructed
`FilePair` by any sequence of `sync_file` calls, with no external
modification of the file system between calls. -/
inductive Reached (H : List Nat → String) : FilePair → Env → Prop where
  | init (src tgt : String) (env : Env) : Reached H (initPair src tgt) env
  | step (fp : FilePair) (env : Env) (t : Nat) (st : MState) :
      Reached H fp env →
      Reached H (sync_file H env t fp st).pair (sync_file H env t fp st).env

/-- The per-pair part of the sync invariant: the recorded digest, when set,
is the digest of the source's current content. -/
def lastHashInv (H : List Nat → String) (fp : FilePair) (env : Env) : Prop :=
  fp.last_hash = none ∨
    ∃ c : List Nat, env.fs fp.source = some c ∧ fp.last_hash = some (H c)

/-- The synced part of the sync invariant: a `synced` status guarantees the
target exists and source and target contents have equal digests. -/
def syncedInv (H : List Nat → String) (fp : FilePair) (env : Env) : Prop :=
  fp.status = "synced" →
    ∃ cs ct : List Nat, env.fs fp.source = some cs ∧
      env.fs fp.target = some ct ∧ H cs = H ct

theorem display_stats (st : MState) : (display st).stats = st.stats := rfl

theorem display_last_update (st : MState) :
    (display st).last_update = st.last_update := rfl

theorem display_events (st : MState) :
    (display st).events = st.events ++ [Event.display] := rfl

theorem send_notification_stats (st : MState) (a b c : String) :
    (send_notification st a b c).stats = st.stats := by
  unfold send_notification; split <;> rfl

theorem send_notification_last_update (st : MState) (a b c : String) :
    (send_notification st a b c).last_update = st.last_update := by
  unfold send_notification; split <;> rfl

theorem send_notification_events_on (st : MState) (a b c : String)
    (h : (st.notifier && st.enable_notifications) = true) :
    (send_notification st a b c).events = st.events ++ [Event.note a b c] := by
  simp only [send_notification, h, if_true, reduceIte]

theorem targetHashOf_status (H : List Nat → String) (env : Env)
    (fp : FilePair) (s : String) :
    targetHashOf H env { fp with status := s } = targetHashOf H env fp := rfl

/-- A successful hash attempt certifies existence, readability, and that the
digest is the digest of the full content. -/
theorem calculate_file_hash_some (H : List Nat → String) (env : Env)
    (p : String) (sh : String)
    (h : calculate_file_hash H env p = some sh) :
    ∃ c : List Nat, env.fs p = some c ∧ env.readable p = true ∧ sh = H c := by
  unfold calculate_file_hash at h
  cases hfs : env.fs p with
  | none =>
      simp only [hfs] at h
      exact absurd h (by simp)
  | some c =>
      simp only [hfs] at h
      by_cases hr : env.readable p = true
      · rw [if_pos hr, hasherFeed_readChunks] at h
        exact ⟨c, rfl, hr, (Option.some_injective _ h).symm⟩
      · rw [if_neg hr] at h; exact absurd h (by simp)

/-- A successful target hash certifies the target file exists and carries
the hashed content. -/
theorem targetHashOf_some (H : List Nat → String) (env : Env) (fp : FilePair)
    (sh : String) (h : targetHashOf H env fp = some sh) :
    ∃ c : List Nat, env.fs fp.target = some c ∧ env.readable fp.target = true ∧
      sh = H c := by
  unfold targetHashOf at h
  by_cases hp : pathExists env fp.target = true
  · rw [if_pos hp] at h
    exact calculate_file_hash_some H env fp.target sh h
  · rw [if_neg hp] at h; exact absurd h (by simp)

theorem validate_fst (env : Env) (fp : FilePair) :
    (fp.validate env).1 = (pathExists env fp.source && isFile env fp.source) := by
  unfold FilePair.validate
  cases hp : pathExists env fp.source <;>
    cases hf : isFile env fp.source <;> simp [hp, hf]

/-- A concrete stand-in for the SHA-256 hex digest, used by the concrete
evaluations below. -/
def H0 : List Nat → String := fun l => toString l

/-- Fresh monitor state: zeroed statistics, notifier present and enabled. -/
def st0 : MState :=
  { stats := { sync_count := 0, error_count := 0, start_time := none,
               last_sync := none, total_files := 1, synced_files := 0 },
    last_update := 0, notifier := true, enable_notifications := true,
    events := [] }

/-- The pair under test: `d/a → d/b`. -/
def fp0 : FilePair := initPair "d/a" "d/b"

/-- Source and target both present, readable and identical (`[1]`). -/
def envEq : Env :=
  { fs := fun p => if p = "d/a" ∨ p = "d/b" then some [1] else none,
    readable := fun _ => true,
    meta := fun p => if p = "d/a" then some 11 else none,
    dirs := fun p => p == "d",
    mkdir_ok := true, copy_ok := true }

/-- Source present with content `[1, 2]` but unreadable (`open` raises). -/
def envUnreadSrc : Env :=
  { fs := fun p => if p = "d/a" then some [1, 2] else none,
    readable := fun _ => false,
    meta := fun _ => none,
    dirs := fun p => p == "d",
    mkdir_ok := true, copy_ok := true }

/-- No file exists at all. -/
def envAbsent : Env :=
  { fs := fun _ => none, readable := fun _ => true, meta := fun _ => none,
    dirs := fun _ => false, mkdir_ok := true, copy_ok := true }

/-- Source present and readable with content `[1, 2]`; target absent. -/
def envDiff : Env :=
  { fs := fun p => if p = "d/a" then some [1, 2] else none,
    readable := fun _ => true,
    meta := fun p => if p = "d/a" then some 11 else none,
    dirs := fun p => p == "d",
    mkdir_ok := true, copy_ok := true }

/-- C6 counterexample --: the claim says the hasher's error value
distinguishes a missing/unreadable file from other I/O failure.  In the
code every failure returns the same single error value `None`:
`calculate_file_hash` on an absent file and on a present-but-unreadable
file return equal values, so nothing is distinguished. -/
theorem C6_counterexample :
    calculate_file_hash H0 envAbsent "d/a" =
      calculate_file_hash H0 envUnreadSrc "d/a" ∧
    calculate_file_hash H0 envAbsent "d/a" = none := by decide

/-- C6 -- (amended): for every path, `calculate_file_hash` returns the
digest of the file's full content — the 4096-byte chunked read loop feeds
the streaming hasher exactly the content — and on failure (absent file, or
unreadable file) it returns the error value `None` instead of letting the
exception escape, without distinguishing the failure kinds. -/
theorem C6_amended_hasher (H : List Nat → String) (env : Env) (p : String) :
    (∀ c : List Nat, env.fs p = some c → env.readable p = true →
        calculate_file_hash H env p = some (H c)) ∧
    (env.fs p = none → calculate_file_hash H env p = none) ∧
    (env.readable p = false → calculate_file_hash H env p = none) := by
  refine ⟨?_, ?_, ?_⟩
  · intro c hc hr
    simp [calculate_file_hash, hc, hr, hasherFeed_readChunks]
  · intro h
    simp [calculate_file_hash, h]
  · intro h
    cases hfs : env.fs p with
    | none => simp [calculate_file_hash, hfs]
    | some c => simp [calculate_file_hash, hfs, h]

/-- C6 witness --: the amended hasher contract evaluated at `d/a` under
the three concrete environments (readable, absent, unreadable). -/
theorem C6_witness :
    calculate_file_hash H0 envEq "d/a" = some (H0 [1]) ∧
    calculate_file_hash H0 envAbsent "d/a" = none ∧
    calculate_file_hash H0 envUnreadSrc "d/a" = none :=
  ⟨(C6_amended_hasher H0 envEq "d/a").1 [1] (by decide) (by decide),
   (C6_amended_hasher H0 envAbsent "d/a").2.1 (by decide),
   (C6_amended_hasher H0 envUnreadSrc "d/a").2.2 (by decide)⟩

/-- C9 --: the scheduler's sleep is the check interval minus the tick's
work, floored at 0.1 seconds: with at least the floor remaining the sleep
is exactly the remainder (1.0s interval and 0.7s work sleeps 0.3s), work
at or beyond the interval sleeps exactly the floor, and the sleep is never
below the floor. -/
theorem C9_sleep_compensation (check_interval elapsed : ℚ) :
    (1 / 10 ≤ check_interval - elapsed →
        monitor_sleep_time check_interval elapsed = check_interval - elapsed) ∧
    (check_interval ≤ elapsed →
        monitor_sleep_time check_interval elapsed = 1 / 10) ∧
    1 / 10 ≤ monitor_sleep_time check_interval elapsed ∧
    monitor_sleep_time 1 (7 / 10) = 3 / 10 := by
  refine ⟨?_, ?_, le_max_left _ _, ?_⟩
  · intro h
    exact max_eq_right h
  · intro h
    have hle : check_interval - elapsed ≤ 1 / 10 := by linarith
    exact max_eq_left hle
  · have : (1 : ℚ) - 7 / 10 = 3 / 10 := by norm_num
    rw [monitor_sleep_time, this]
    exact max_eq_right (by norm_num)

/-- C9 witness --: the sleep compensation at the claim's own numbers,
interval 1.0 and elapsed 0.7 and 1.5. -/
theorem C9_witness :
    monitor_sleep_time 1 (7 / 10) = 3 / 10 ∧
    monitor_sleep_time 1 (3 / 2) = 1 / 10 ∧
    (1 : ℚ) / 10 ≤ monitor_sleep_time 1 (7 / 10) :=
  ⟨(C9_sleep_compensation 1 (7 / 10)).2.2.2,
   (C9_sleep_compensation 1 (3 / 2)).2.1 (by norm_num),
   (C9_sleep_compensation 1 (7 / 10)).2.2.1⟩

/-- C1 counterexample --: the claim says an unhashable source increments
the run-wide `errorCount` by 1.  Syncing `d/a → d/b` where `d/a` exists but
is unreadable: the call fails, the pair degrades to `error` with its own
counter at 1, but the run-wide counter stays 0 — only the
`except`-branch (lines 519-525) touches `self.stats['error_count']`, and a
hash failure returns early at line 473 without reaching it. -/
theorem C1_counterexample :
    (sync_file H0 envUnreadSrc 0 fp0 st0).ok = false ∧
    (sync_file H0 envUnreadSrc 0 fp0 st0).pair.status = "error" ∧
    (sync_file H0 envUnreadSrc 0 fp0 st0).pair.error_count = 1 ∧
    (sync_file H0 envUnreadSrc 0 fp0 st0).st.stats.error_count = 0 := by
  decide

/-- C1 -- (amended): when the source cannot be hashed, `sync_file` sets the
pair's status to `error`, increments the pair's `error_count` by exactly 1,
leaves the run-wide statistics (the run-wide `error_count` included) and the
file system untouched — no copy is attempted — and returns failure. -/
theorem C1_amended_hash_fail_effects (H : List Nat → String) (env : Env)
    (t : Nat) (fp : FilePair) (st : MState)
    (h : calculate_file_hash H env fp.source = none) :
    (sync_file H env t fp st).pair.status = "error" ∧
    (sync_file H env t fp st).pair.error_count = fp.error_count + 1 ∧
    (sync_file H env t fp st).pair.last_hash = fp.last_hash ∧
    (sync_file H env t fp st).pair.last_sync = fp.last_sync ∧
    (sync_file H env t fp st).st.stats = st.stats ∧
    (sync_file H env t fp st).env = env ∧
    (sync_file H env t fp st).ok = false := by
  rw [sync_file_hash_fail H env t fp st h]
  exact ⟨rfl, rfl, rfl, rfl, rfl, rfl, rfl⟩

/-- C1 witness --: the amended hash-failure contract evaluated on the
concrete unreadable-source environment. -/
theorem C1_witness :
    (sync_file H0 envUnreadSrc 5 fp0 st0).pair.status = "error" ∧
    (sync_file H0 envUnreadSrc 5 fp0 st0).pair.error_count =
      fp0.error_count + 1 ∧
    (sync_file H0 envUnreadSrc 5 fp0 st0).pair.last_hash = fp0.last_hash ∧
    (sync_file H0 envUnreadSrc 5 fp0 st0).pair.last_sync = fp0.last_sync ∧
    (sync_file H0 envUnreadSrc 5 fp0 st0).st.stats = st0.stats ∧
    (sync_file H0 envUnreadSrc 5 fp0 st0).env = envUnreadSrc ∧
    (sync_file H0 envUnreadSrc 5 fp0 st0).ok = false :=
  C1_amended_hash_fail_effects H0 envUnreadSrc 5 fp0 st0 (by decide)

/-- C4 --: when the source hash equals the target hash, `sync_file`
performs no copy (the file system is returned untouched), sets the status
to `synced`, returns success, and leaves `last_hash`, `last_sync` and the
run's statistics (`sync_count` included) unchanged; a second call on the
resulting state with unchanged content takes the same no-op path, so the
call is idempotent on those fields. -/
theorem C4_noop_idempotent (H : List Nat → String) (env : Env) (t t' : Nat)
    (fp : FilePair) (st : MState) (sh : String)
    (hs : calculate_file_hash H env fp.source = some sh)
    (ht : targetHashOf H env fp = some sh) :
    (sync_file H env t fp st).ok = true ∧
    (sync_file H env t fp st).pair.status = "synced" ∧
    (sync_file H env t fp st).pair.last_hash = fp.last_hash ∧
    (sync_file H env t fp st).pair.last_sync = fp.last_sync ∧
    (sync_file H env t fp st).st.stats = st.stats ∧
    (sync_file H env t fp st).env = env ∧
    (sync_file H (sync_file H env t fp st).env t'
        (sync_file H env t fp st).pair (sync_file H env t fp st).st).ok =
      true ∧
    (sync_file H (sync_file H env t fp st).env t'
        (sync_file H env t fp st).pair
        (sync_file H env t fp st).st).pair.status = "synced" ∧
    (sync_file H (sync_file H env t fp st).env t'
        (sync_file H env t fp st).pair
        (sync_file H env t fp st).st).pair.last_hash = fp.last_hash ∧
    (sync_file H (sync_file H env t fp st).env t'
        (sync_file H env t fp st).pair
        (sync_file H env t fp st).st).pair.last_sync = fp.last_sync ∧
    (sync_file H (sync_file H env t fp st).env t'
        (sync_file H env t fp st).pair
        (sync_file H env t fp st).st).st.stats = st.stats := by
  have ht1 : targetHashOf H env { fp with status := "syncing" } = some sh := by
    rw [targetHashOf_status]; exact ht
  have e1 := sync_file_noop H env t fp st sh hs ht1
  rw [e1]
  have hs2 : calculate_file_hash H env
      ({ fp with status := "synced" } : FilePair).source = some sh := hs
  have ht2 : targetHashOf H env
      { ({ fp with status := "synced" } : FilePair) with status := "syncing" } =
        some sh := by
    rw [targetHashOf_status, targetHashOf_status]; exact ht
  have e2 := sync_file_noop H env t' { fp with status := "synced" }
    (display (display (display st))) sh hs2 ht2
  rw [e2]
  exact ⟨rfl, rfl, rfl, rfl, rfl, rfl, rfl, rfl, rfl, rfl, rfl⟩

/-- C4 witness --: the no-op contract evaluated on the concrete environment
where `d/a` and `d/b` both hold `[1]`. -/
theorem C4_witness :
    (sync_file H0 envEq 4 fp0 st0).ok = true ∧
    (sync_file H0 envEq 4 fp0 st0).pair.status = "synced" ∧
    (sync_file H0 envEq 4 fp0 st0).pair.last_hash = fp0.last_hash ∧
    (sync_file H0 envEq 4 fp0 st0).pair.last_sync = fp0.last_sync ∧
    (sync_file H0 envEq 4 fp0 st0).st.stats = st0.stats ∧
    (sync_file H0 envEq 4 fp0 st0).env = envEq ∧
    (sync_file H0 (sync_file H0 envEq 4 fp0 st0).env 9
        (sync_file H0 envEq 4 fp0 st0).pair (sync_file H0 envEq 4 fp0 st0).st).ok =
      true ∧
    (sync_file H0 (sync_file H0 envEq 4 fp0 st0).env 9
        (sync_file H0 envEq 4 fp0 st0).pair
        (sync_file H0 envEq 4 fp0 st0).st).pair.status = "synced" ∧
    (sync_file H0 (sync_file H0 envEq 4 fp0 st0).env 9
        (sync_file H0 envEq 4 fp0 st0).pair
        (sync_file H0 envEq 4 fp0 st0).st).pair.last_hash = fp0.last_hash ∧
    (sync_file H0 (sync_file H0 envEq 4 fp0 st0).env 9
        (sync_file H0 envEq 4 fp0 st0).pair
        (sync_file H0 envEq 4 fp0 st0).st).pair.last_sync = fp0.last_sync ∧
    (sync_file H0 (sync_file H0 envEq 4 fp0 st0).env 9
        (sync_file H0 envEq 4 fp0 st0).pair
        (sync_file H0 envEq 4 fp0 st0).st).st.stats = st0.stats :=
  C4_noop_idempotent H0 envEq 4 9 fp0 st0 "[1]" (by decide) (by decide)

/-- C10 --: whenever `sync_file` returns failure, the pair's `last_hash`
and `last_sync`, its source/target paths, the run's `sync_count`, the run's
`last_sync` timestamp, `last_update` and the remaining statistics fields are
all unchanged; the call only sets the pair's status to `error`, increments
the pair's `error_count` by 1, and increments the run's `error_count` by at
most 1. -/
theorem C10_error_atomicity (H : List Nat → String) (env : Env) (t : Nat)
    (fp : FilePair) (st : MState)
    (h : (sync_file H env t fp st).ok = false) :
    (sync_file H env t fp st).pair.last_hash = fp.last_hash ∧
    (sync_file H env t fp st).pair.last_sync = fp.last_sync ∧
    (sync_file H env t fp st).pair.source = fp.source ∧
    (sync_file H env t fp st).pair.target = fp.target ∧
    (sync_file H env t fp st).st.stats.sync_count = st.stats.sync_count ∧
    (sync_file H env t fp st).st.stats.last_sync = st.stats.last_sync ∧
    (sync_file H env t fp st).st.stats.start_time = st.stats.start_time ∧
    (sync_file H env t fp st).st.stats.total_files = st.stats.total_files ∧
    (sync_file H env t fp st).st.stats.synced_files = st.stats.synced_files ∧
    (sync_file H env t fp st).st.last_update = st.last_update ∧
    (sync_file H env t fp st).pair.status = "error" ∧
    (sync_file H env t fp st).pair.error_count = fp.error_count + 1 ∧
    ((sync_file H env t fp st).st.stats.error_count = st.stats.error_count ∨
      (sync_file H env t fp st).st.stats.error_count =
        st.stats.error_count + 1) := by
  cases hsc : calculate_file_hash H env fp.source with
  | none =>
      rw [sync_file_hash_fail H env t fp st hsc]
      exact ⟨rfl, rfl, rfl, rfl, rfl, rfl, rfl, rfl, rfl, rfl, rfl, rfl,
        Or.inl rfl⟩
  | some sh =>
      by_cases hth : targetHashOf H env { fp with status := "syncing" } = some sh
      · rw [sync_file_noop H env t fp st sh hsc hth] at h
        exact absurd h (by simp)
      · cases hmk : env.mkdir_ok with
        | false =>
            rw [sync_file_mkdir_fail H env t fp st sh hsc hth hmk]
            refine ⟨rfl, rfl, rfl, rfl, ?_, ?_, ?_, ?_, ?_, ?_, rfl, rfl,
              Or.inr ?_⟩ <;>
              simp [syncExcept, display_stats, send_notification_stats,
                display_last_update, send_notification_last_update]
        | true =>
            cases hcp : env.copy_ok with
            | false =>
                rw [sync_file_copy_fail H env t fp st sh hsc hth hmk hcp]
                refine ⟨rfl, rfl, rfl, rfl, ?_, ?_, ?_, ?_, ?_, ?_, rfl, rfl,
                  Or.inr ?_⟩ <;>
                  simp [syncExcept, display_stats, send_notification_stats,
                    display_last_update, send_notification_last_update]
            | true =>
                rw [sync_file_copy H env t fp st sh hsc hth hmk hcp] at h
                exact absurd h (by simp)

/-- C10 witness --: error atomicity evaluated on the unreadable-source
environment. -/
theorem C10_witness :
    (sync_file H0 envUnreadSrc 7 fp0 st0).pair.last_hash = fp0.last_hash ∧
    (sync_file H0 envUnreadSrc 7 fp0 st0).pair.last_sync = fp0.last_sync ∧
    (sync_file H0 envUnreadSrc 7 fp0 st0).pair.source = fp0.source ∧
    (sync_file H0 envUnreadSrc 7 fp0 st0).pair.target = fp0.target ∧
    (sync_file H0 envUnreadSrc 7 fp0 st0).st.stats.sync_count =
      st0.stats.sync_count ∧
    (sync_file H0 envUnreadSrc 7 fp0 st0).st.stats.last_sync =
      st0.stats.last_sync ∧
    (sync_file H0 envUnreadSrc 7 fp0 st0).st.stats.start_time =
      st0.stats.start_time ∧
    (sync_file H0 envUnreadSrc 7 fp0 st0).st.stats.total_files =
      st0.stats.total_files ∧
    (sync_file H0 envUnreadSrc 7 fp0 st0).st.stats.synced_files =
      st0.stats.synced_files ∧
    (sync_file H0 envUnreadSrc 7 fp0 st0).st.last_update = st0.last_update ∧
    (sync_file H0 envUnreadSrc 7 fp0 st0).pair.status = "error" ∧
    (sync_file H0 envUnreadSrc 7 fp0 st0).pair.error_count =
      fp0.error_count + 1 ∧
    ((sync_file H0 envUnreadSrc 7 fp0 st0).st.stats.error_count =
        st0.stats.error_count ∨
      (sync_file H0 envUnreadSrc 7 fp0 st0).st.stats.error_count =
        st0.stats.error_count + 1) :=
  C10_error_atomicity H0 envUnreadSrc 7 fp0 st0 (by decide)

/-- C3 --: when the source hash differs from the target hash (or the
target is absent) and `mkdir`/`copy2` succeed, `sync_file` creates the
target's missing parent directories, copies the source's bytes and metadata
to the target, sets `last_hash` to the source hash, sets `last_sync` to the
current time (which is `≥` its previous value by the monotone-clock
hypothesis), increments the run's `sync_count` by exactly 1, and afterwards
`hash(target) = hash(source) = last_hash`. -/
theorem C3_copy_path (H : List Nat → String) (env : Env) (t : Nat)
    (fp : FilePair) (st : MState) (sh : String)
    (hs : calculate_file_hash H env fp.source = some sh)
    (ht : targetHashOf H env fp ≠ some sh)
    (hm : env.mkdir_ok = true)
    (hc : env.copy_ok = true)
    (hrt : env.readable fp.target = true)
    (hmono : ∀ p : Nat, fp.last_sync = some p → p ≤ t) :
    (∀ d ∈ ancestors (parentPath fp.target),
        (sync_file H env t fp st).env.dirs d = true) ∧
    (sync_file H env t fp st).env.fs fp.target = env.fs fp.source ∧
    (sync_file H env t fp st).env.meta fp.target = env.meta fp.source ∧
    (sync_file H env t fp st).pair.last_hash = some sh ∧
    (sync_file H env t fp st).pair.last_sync = some t ∧
    (∀ p : Nat, fp.last_sync = some p → p ≤ t) ∧
    (sync_file H env t fp st).st.stats.sync_count = st.stats.sync_count + 1 ∧
    (sync_file H env t fp st).st.stats.last_sync = some t ∧
    (sync_file H env t fp st).pair.status = "synced" ∧
    (sync_file H env t fp st).ok = true ∧
    calculate_file_hash H (sync_file H env t fp st).env fp.target = some sh ∧
    calculate_file_hash H (sync_file H env t fp st).env fp.source = some sh := by
  have ht1 : targetHashOf H env { fp with status := "syncing" } ≠ some sh := by
    rw [targetHashOf_status]; exact ht
  obtain ⟨cs, hcs, hrs, hsh⟩ := calculate_file_hash_some H env fp.source sh hs
  rw [sync_file_copy H env t fp st sh hs ht1 hm hc]
  refine ⟨?_, ?_, ?_, rfl, rfl, hmono, ?_, ?_, rfl, rfl, ?_, ?_⟩
  · intro d hd
    have hcont : (ancestors (parentPath fp.target)).contains d = true :=
      List.elem_iff.mpr hd
    simp only [copy2, mkdir_parents]
    rw [hcont, Bool.or_true]
  · simp [copy2, mkdir_parents]
  · simp [copy2, mkdir_parents]
  · simp [display_stats, send_notification_stats]
  · simp [display_stats, send_notification_stats]
  · have hfs' : (copy2 (mkdir_parents env fp.target) fp.source
        fp.target).fs fp.target = some cs := by
      simp [copy2, mkdir_parents, hcs]
    have hrd' : (copy2 (mkdir_parents env fp.target) fp.source
        fp.target).readable fp.target = true := hrt
    show calculate_file_hash H (copy2 (mkdir_parents env fp.target) fp.source
        fp.target) fp.target = some sh
    unfold calculate_file_hash
    rw [hfs']
    simp only [hrd', if_true, reduceIte, hasherFeed_readChunks]
    rw [hsh]
  · have hfs' : (copy2 (mkdir_parents env fp.target) fp.source
        fp.target).fs fp.source = some cs := by
      by_cases hst : fp.source = fp.target
      · simp [copy2, mkdir_parents, if_pos hst, ← hst, hcs]
      · simp [copy2, mkdir_parents, if_neg hst, hcs]
    have hrd' : (copy2 (mkdir_parents env fp.target) fp.source
        fp.target).readable fp.source = true := hrs
    show calculate_file_hash H (copy2 (mkdir_parents env fp.target) fp.source
        fp.target) fp.source = some sh
    unfold calculate_file_hash
    rw [hfs']
    simp only [hrd', if_true, reduceIte, hasherFeed_readChunks]
    rw [hsh]

/-- C3 witness --: the copy path evaluated on the concrete environment
where `d/a` holds `[1, 2]` and `d/b` is absent. -/
theorem C3_witness :
    (∀ d ∈ ancestors (parentPath fp0.target),
        (sync_file H0 envDiff 3 fp0 st0).env.dirs d = true) ∧
    (sync_file H0 envDiff 3 fp0 st0).env.fs fp0.target = envDiff.fs fp0.source ∧
    (sync_file H0 envDiff 3 fp0 st0).env.meta fp0.target =
      envDiff.meta fp0.source ∧
    (sync_file H0 envDiff 3 fp0 st0).pair.last_hash = some "[1, 2]" ∧
    (sync_file H0 envDiff 3 fp0 st0).pair.last_sync = some 3 ∧
    (∀ p : Nat, fp0.last_sync = some p → p ≤ 3) ∧
    (sync_file H0 envDiff 3 fp0 st0).st.stats.sync_count =
      st0.stats.sync_count + 1 ∧
    (sync_file H0 envDiff 3 fp0 st0).st.stats.last_sync = some 3 ∧
    (sync_file H0 envDiff 3 fp0 st0).pair.status = "synced" ∧
    (sync_file H0 envDiff 3 fp0 st0).ok = true ∧
    calculate_file_hash H0 (sync_file H0 envDiff 3 fp0 st0).env fp0.target =
      some "[1, 2]" ∧
    calculate_file_hash H0 (sync_file H0 envDiff 3 fp0 st0).env fp0.source =
      some "[1, 2]" :=
  C3_copy_path H0 envDiff 3 fp0 st0 "[1, 2]" (by decide) (by decide)
    (by decide) (by decide) (by decide) (by intro p hp; cases hp)

/-- C7 --: if any declared pair's source does not exist or is not a regular
file, `validate_all_pairs` returns false and `run` aborts at preflight — it
performs no sync attempt and leaves the file system untouched; if every
pair's source exists and is a regular file, `validate_all_pairs` returns
true. -/
theorem C7_preflight_gate (H : List Nat → String) (env : Env) (t : Nat)
    (pairs : List FilePair) (st : MState) :
    ((∃ fp ∈ pairs, pathExists env fp.source = false ∨
          isFile env fp.source = false) →
        validate_all_pairs env pairs = false ∧
        (run H env t pairs st).aborted = true ∧
        (run H env t pairs st).syncs = [] ∧
        (run H env t pairs st).env = env) ∧
    ((∀ fp ∈ pairs, pathExists env fp.source = true ∧
          isFile env fp.source = true) →
        validate_all_pairs env pairs = true) := by
  constructor
  · rintro ⟨fp, hmem, hbad⟩
    have hv : validate_all_pairs env pairs = false := by
      rw [validate_all_pairs_eq_all]
      rw [List.all_eq_false]
      refine ⟨fp, hmem, ?_⟩
      rw [validate_fst]
      rcases hbad with hb | hb <;> simp [hb]
    refine ⟨hv, ?_, ?_, ?_⟩ <;> simp [run, hv]
  · intro hall
    rw [validate_all_pairs_eq_all, List.all_eq_true]
    intro fp hmem
    rw [validate_fst, (hall fp hmem).1, (hall fp hmem).2]
    rfl

/-- C7 witness --: the gate evaluated on concrete pair lists — an invalid
pair (absent source) aborts the run with no sync, and a valid pair passes
validation. -/
theorem C7_witness :
    (validate_all_pairs envAbsent [fp0] = false ∧
      (run H0 envAbsent 0 [fp0] st0).aborted = true ∧
      (run H0 envAbsent 0 [fp0] st0).syncs = [] ∧
      (run H0 envAbsent 0 [fp0] st0).env = envAbsent) ∧
    validate_all_pairs envEq [fp0] = true :=
  ⟨(C7_preflight_gate H0 envAbsent 0 [fp0] st0).1
      ⟨fp0, by decide, by decide⟩,
   (C7_preflight_gate H0 envEq 0 [fp0] st0).2
      (by intro fp hmem; rw [List.mem_singleton.mp hmem]; exact ⟨by decide, by decide⟩)⟩

/-- C5 counterexample --: the claim says every invocation emits exactly one
terminal event to the sink, invocations with no copy included.  A no-op
invocation (source and target already identical), with the notifier present
and notifications enabled, emits zero notification events. -/
theorem C5_counterexample :
    st0.notifier = true ∧ st0.enable_notifications = true ∧
    (sync_file H0 envEq 2 fp0 st0).ok = true ∧
    noteEvents (sync_file H0 envEq 2 fp0 st0).st.events = [] := by decide

/-- C5 -- (amended): per invocation of `sync_file` (with a notifier present
and notifications enabled), the sink receives: no notification and two
dashboard refreshes on the hash-failure path; no notification and three
refreshes on the no-op path; exactly one `file_changed` notification on the
successful copy path; exactly one `sync_error` notification on the
caught-exception (mkdir/copy failure) path. -/
theorem C5_amended_events (H : List Nat → String) (env : Env) (t : Nat)
    (fp : FilePair) (st : MState)
    (hn : (st.notifier && st.enable_notifications) = true) :
    (calculate_file_hash H env fp.source = none →
        (sync_file H env t fp st).st.events =
          st.events ++ [Event.display, Event.display]) ∧
    (∀ sh : String, calculate_file_hash H env fp.source = some sh →
        targetHashOf H env fp = some sh →
        (sync_file H env t fp st).st.events =
          st.events ++ [Event.display, Event.display, Event.display]) ∧
    (∀ sh : String, calculate_file_hash H env fp.source = some sh →
        targetHashOf H env fp ≠ some sh →
        env.mkdir_ok = true → env.copy_ok = true →
        (sync_file H env t fp st).st.events =
          st.events ++ [Event.display,
            Event.note "File Synchronized"
              (fp.source ++ " -> " ++ fp.target) "file_changed",
            Event.display]) ∧
    (∀ sh : String, calculate_file_hash H env fp.source = some sh →
        targetHashOf H env fp ≠ some sh →
        (env.mkdir_ok = false ∨ env.copy_ok = false) →
        (sync_file H env t fp st).st.events =
          st.events ++ [Event.display,
            Event.note "Sync Error" ("Failed to sync " ++ fp.source)
              "sync_error",
            Event.display]) := by
  refine ⟨?_, ?_, ?_, ?_⟩
  · intro h
    rw [sync_file_hash_fail H env t fp st h]
    simp [display_events, List.append_assoc]
  · intro sh hs ht
    have ht1 : targetHashOf H env { fp with status := "syncing" } = some sh := by
      rw [targetHashOf_status]; exact ht
    rw [sync_file_noop H env t fp st sh hs ht1]
    simp [display_events, List.append_assoc]
  · intro sh hs ht hm hc
    have ht1 : targetHashOf H env { fp with status := "syncing" } ≠ some sh := by
      rw [targetHashOf_status]; exact ht
    rw [sync_file_copy H env t fp st sh hs ht1 hm hc]
    rw [display_events, send_notification_events_on _ _ _ _ (by simpa using hn)]
    simp [display_events, List.append_assoc]
  · intro sh hs ht hforall
    have ht1 : targetHashOf H env { fp with status := "syncing" } ≠ some sh := by
      rw [targetHashOf_status]; exact ht
    rcases hforall with hm | hc
    · rw [sync_file_mkdir_fail H env t fp st sh hs ht1 hm]
      rw [syncExcept]
      rw [display_events, send_notification_events_on _ _ _ _ (by simpa using hn)]
      simp [display_events, List.append_assoc]
    · cases hmk : env.mkdir_ok with
      | false =>
          rw [sync_file_mkdir_fail H env t fp st sh hs ht1 hmk]
          rw [syncExcept]
          rw [display_events,
            send_notification_events_on _ _ _ _ (by simpa using hn)]
          simp [display_events, List.append_assoc]
      | true =>
          rw [sync_file_copy_fail H env t fp st sh hs ht1 hmk hc]
          rw [syncExcept]
          rw [display_events,
            send_notification_events_on _ _ _ _ (by simpa using hn)]
          simp [display_events, List.append_assoc]

/-- C5 witness --: the amended event contract evaluated on the concrete
copy path (`d/a` holds `[1, 2]`, `d/b` absent): one `file_changed`
notification between the two dashboard refreshes. -/
theorem C5_witness :
    (sync_file H0 envDiff 6 fp0 st0).st.events =
      st0.events ++ [Event.display,
        Event.note "File Synchronized"
          (fp0.source ++ " -> " ++ fp0.target) "file_changed",
        Event.display] :=
  (C5_amended_events H0 envDiff 6 fp0 st0 (by decide)).2.2.1 "[1, 2]"
    (by decide) (by decide) (by decide) (by decide)

/-- C8 counterexample --: the claim says every internal failure produces an
error event.  A hash failure (unreadable source), with the notifier present
and notifications enabled, transitions the pair to `error` and returns
`False` but emits no notification at all: line 473 returns before any
`_send_notification` call. -/
theorem C8_counterexample :
    st0.notifier = true ∧ st0.enable_notifications = true ∧
    (sync_file H0 envUnreadSrc 1 fp0 st0).pair.status = "error" ∧
    (sync_file H0 envUnreadSrc 1 fp0 st0).ok = false ∧
    noteEvents (sync_file H0 envUnreadSrc 1 fp0 st0).st.events = [] := by
  decide

/-- C8 -- (amended): `sync_file` is total — every call returns a boolean to
its caller — and every modelled internal failure is converted into the
`error` transition with a `False` return; a `sync_error` event is emitted
for failures raised inside the `try` block (mkdir failure, copy failure)
but not for a hash failure, which returns early without emitting. -/
theorem C8_amended_no_raise (H : List Nat → String) (env : Env) (t : Nat)
    (fp : FilePair) (st : MState)
    (hn : (st.notifier && st.enable_notifications) = true) :
    (calculate_file_hash H env fp.source = none →
        (sync_file H env t fp st).pair.status = "error" ∧
        (sync_file H env t fp st).ok = false ∧
        noteEvents (sync_file H env t fp st).st.events =
          noteEvents st.events) ∧
    (∀ sh : String, calculate_file_hash H env fp.source = some sh →
        targetHashOf H env fp ≠ some sh →
        (env.mkdir_ok = false ∨ env.copy_ok = false) →
        (sync_file H env t fp st).pair.status = "error" ∧
        (sync_file H env t fp st).ok = false ∧
        noteEvents (sync_file H env t fp st).st.events =
          noteEvents st.events ++
            [Event.note "Sync Error" ("Failed to sync " ++ fp.source)
              "sync_error"]) ∧
    ((sync_file H env t fp st).ok = true ∨
      (sync_file H env t fp st).ok = false) := by
  refine ⟨?_, ?_, ?_⟩
  · intro h
    rw [sync_file_hash_fail H env t fp st h]
    refine ⟨rfl, rfl, ?_⟩
    simp [display_events, noteEvents, List.filter_append, List.append_assoc]
  · intro sh hs ht hfail
    have ht1 : targetHashOf H env { fp with status := "syncing" } ≠ some sh := by
      rw [targetHashOf_status]; exact ht
    have key : ∀ env' : Env,
        (syncExcept env' { fp with status := "syncing" } (display st)).pair.status
            = "error" ∧
        (syncExcept env' { fp with status := "syncing" } (display st)).ok
            = false ∧
        noteEvents (syncExcept env' { fp with status := "syncing" }
            (display st)).st.events =
          noteEvents st.events ++
            [Event.note "Sync Error" ("Failed to sync " ++ fp.source)
              "sync_error"] := by
      intro env'
      refine ⟨rfl, rfl, ?_⟩
      rw [syncExcept]
      rw [display_events, send_notification_events_on _ _ _ _ (by simpa using hn)]
      simp [display_events, noteEvents, List.filter_append, List.append_assoc]
    rcases hfail with hm | hc
    · rw [sync_file_mkdir_fail H env t fp st sh hs ht1 hm]
      exact key env
    · cases hmk : env.mkdir_ok with
      | false =>
          rw [sync_file_mkdir_fail H env t fp st sh hs ht1 hmk]
          exact key env
      | true =>
          rw [sync_file_copy_fail H env t fp st sh hs ht1 hmk hc]
          exact key (mkdir_parents env fp.target)
  · cases hok : (sync_file H env t fp st).ok
    · exact Or.inr rfl
    · exact Or.inl rfl

/-- C8 witness --: the amended contract evaluated on the concrete
unreadable-source environment (hash-failure path). -/
theorem C8_witness :
    (sync_file H0 envUnreadSrc 8 fp0 st0).pair.status = "error" ∧
    (sync_file H0 envUnreadSrc 8 fp0 st0).ok = false ∧
    noteEvents (sync_file H0 envUnreadSrc 8 fp0 st0).st.events =
      noteEvents st0.events :=
  (C8_amended_no_raise H0 envUnreadSrc 8 fp0 st0 (by decide)).1 (by decide)

/-- C2 counterexample --: the claim says `status = synced` implies
`last_hash` equals the digest of the source at the last successful copy and
the target's content hash equals `last_hash`.  One `sync_file` call on a
fresh pair whose source and target are already identical takes the no-op
path: the status becomes `synced` while `last_hash` stays `None`, which is
not the target's content hash. -/
theorem C2_counterexample :
    (sync_file H0 envEq 7 fp0 st0).pair.status = "synced" ∧
    (sync_file H0 envEq 7 fp0 st0).pair.last_hash = none ∧
    calculate_file_hash H0 (sync_file H0 envEq 7 fp0 st0).env
      (sync_file H0 envEq 7 fp0 st0).pair.target = some "[1]" ∧
    (sync_file H0 envEq 7 fp0 st0).pair.last_hash ≠
      calculate_file_hash H0 (sync_file H0 envEq 7 fp0 st0).env
        (sync_file H0 envEq 7 fp0 st0).pair.target := by decide

/-- C2 -- (amended): for every state reachable from a fresh pair by any
sequence of `sync_file` calls (no external file modification between
calls), `status = synced` implies the source and the target both exist and
their content digests agree, and `last_hash` is either `None` (no copy has
happened yet — the no-op path does not set it) or the digest of the
source's current content, as set by the last successful copy. -/
theorem C2_amended_sync_invariant (H : List Nat → String) (fp : FilePair)
    (env : Env) (h : Reached H fp env) :
    lastHashInv H fp env ∧ syncedInv H fp env := by
  induction h with
  | init src tgt env =>
      refine ⟨Or.inl rfl, ?_⟩
      intro hst
      simp [initPair] at hst
  | step fp env t st hr ih =>
      cases hsc : calculate_file_hash H env fp.source with
      | none =>
          rw [sync_file_hash_fail H env t fp st hsc]
          refine ⟨ih.1, ?_⟩
          intro hst
          simp at hst
      | some sh =>
          by_cases hth : targetHashOf H env { fp with status := "syncing" }
              = some sh
          · rw [sync_file_noop H env t fp st sh hsc hth]
            refine ⟨ih.1, ?_⟩
            intro _
            obtain ⟨cs, hcs, hrs, hsh⟩ :=
              calculate_file_hash_some H env fp.source sh hsc
            obtain ⟨ct, hct, hrt, hsh2⟩ :=
              targetHashOf_some H env { fp with status := "syncing" } sh hth
            exact ⟨cs, ct, hcs, hct, by rw [← hsh, ← hsh2]⟩
          · cases hmk : env.mkdir_ok with
            | false =>
                rw [sync_file_mkdir_fail H env t fp st sh hsc hth hmk]
                refine ⟨ih.1, ?_⟩
                intro hst
                simp [syncExcept] at hst
            | true =>
                cases hcp : env.copy_ok with
                | false =>
                    rw [sync_file_copy_fail H env t fp st sh hsc hth hmk hcp]
                    refine ⟨ih.1, ?_⟩
                    intro hst
                    simp [syncExcept] at hst
                | true =>
                    rw [sync_file_copy H env t fp st sh hsc hth hmk hcp]
                    obtain ⟨cs, hcs, hrs, hsh⟩ :=
                      calculate_file_hash_some H env fp.source sh hsc
                    have hfs_src : (copy2 (mkdir_parents env fp.target)
                        fp.source fp.target).fs fp.source = some cs := by
                      by_cases hst : fp.source = fp.target
                      · simp [copy2, mkdir_parents, if_pos hst, ← hst, hcs]
                      · simp [copy2, mkdir_parents, if_neg hst, hcs]
                    have hfs_tgt : (copy2 (mkdir_parents env fp.target)
                        fp.source fp.target).fs fp.target = some cs := by
                      simp [copy2, mkdir_parents, hcs]
                    refine ⟨Or.inr ⟨cs, hfs_src, by rw [hsh]⟩, ?_⟩
                    intro _
                    exact ⟨cs, cs, hfs_src, hfs_tgt, rfl⟩

/-- C2 witness --: the amended invariant at a concrete reachable state
(the freshly constructed pair). -/
theorem C2_witness :
    lastHashInv H0 (initPair "d/a" "d/b") envEq ∧
    syncedInv H0 (initPair "d/a" "d/b") envEq :=
  C2_amended_sync_invariant H0 (initPair "d/a" "d/b") envEq
    (Reached.init "d/a" "d/b" envEq)

end PyPiHubSync
